import Mathlib

/-!
Verification development for the ixdat database layer (src/ixdat/db.py):
a shallow embedding of the DataBase facade, the Saveable base class,
PlaceHolderObject, fill_object_list and the with_memory helper, together
with theorems about backend switching, structural equality, column merging
and lazy id assignment.

Stateful Python code is embedded as explicit state passing over DBState;
code that can raise returns Except ErrKind.
-/

/-- Error kinds raised by the embedded code. dataBaseError models
ixdat.exceptions.DataBaseError; valueError, notImplementedError, typeError
and indexError model the corresponding Python built-ins raised or triggered
in db.py. configurationError is raised nowhere in db.py: it names the error
kind that the specification's taxonomy expects from backend switching, so
that the spec's expectation can be stated and compared with the code. -/
inductive ErrKind where
  | dataBaseError
  | valueError
  | notImplementedError
  | typeError
  | indexError
  | configurationError
deriving DecidableEq

/-- Backend instances. Modelled from the spec: ixdat.backends is not under
src/; the registry holds the ready singletons none, memory and directory. -/
inductive Backend where
  | none
  | memory
  | directory
deriving DecidableEq

/-- Modelled from the spec: the registry database_backends of ready backend
instances, keyed by name (the directory, memory and none singletons). -/
def database_backends : List (String × Backend) :=
  [("none", Backend.none), ("memory", Backend.memory),
   ("directory", Backend.directory)]

/-- Modelled from the spec: the names registered in BACKEND_CLASSES, the
registry of constructible backend classes consulted by DataBase.set_backend
(the none backend is a singleton, not a constructible class). -/
def BACKEND_CLASSES : List String := ["directory", "memory"]

/-- Modelled from the spec: instantiating the backend class registered under
a name. DataBase.set_backend calls BackendClass with its db_kwargs; the
options do not affect which backend value results in this model. -/
def instantiate_backend (s : String) : Backend :=
  if s = "memory" then Backend.memory else Backend.directory

/-- The backend_type tag exposed by every backend (spec section 6: a small
closed tag). -/
def Backend.backend_type : Backend → String
  | Backend.none => "none"
  | Backend.memory => "memory"
  | Backend.directory => "directory"

/-- The process-wide mutable state of db.py: DB.backend (the active
backend), DB.new_object_backend (routing for new objects) and the per-table
id counters used by the unsaved/memory backends. -/
structure DBState where
  active : Backend
  newObjectBackend : String
  memCounters : List (String × Nat)
deriving DecidableEq

/-- The state right after module import: DB = DataBase() takes the directory
backend and new_object_backend = "none" (db.py lines 39-42, 80). -/
def defaultState : DBState :=
  { active := Backend.directory, newObjectBackend := "none", memCounters := [] }

/-- First-match association lookup, modelling Python dict lookup (keys are
unique in the dicts the source builds). -/
def assocFind {β : Type} : List (String × β) → String → Option β
  | [], _ => Option.none
  | (k, v) :: rest, key => if k = key then some v else assocFind rest key

/-- Replace-or-append update of a counter table. -/
def setCounter : List (String × Nat) → String → Nat → List (String × Nat)
  | [], key, n => [(key, n)]
  | (k, v) :: rest, key, n =>
    if k = key then (key, n) :: rest else (k, v) :: setCounter rest key n

/-- DataBase.set_backend, db.py lines 62-77. A non-string argument is
assumed to be the backend itself and assigned directly; a string is looked
up in BACKEND_CLASSES and instantiated; an unrecognized string raises
NotImplementedError. Returns self.backend together with the new state. -/
def DataBase.set_backend (arg : Sum String Backend) (st : DBState) :
    Except ErrKind (Backend × DBState) :=
  match arg with
  | Sum.inr b => Except.ok (b, { st with active := b })
  | Sum.inl s =>
    if BACKEND_CLASSES.contains s then
      let b := instantiate_backend s
      Except.ok (b, { st with active := b })
    else Except.error ErrKind.notImplementedError

/-- with_memory, db.py lines 708-717. The wrapped function is modelled as an
explicit state transformer that also returns its final state when it raises.
The source sets DB.new_object_backend to "memory", calls the function, and
sets it back to "none" only after a normal return; there is no try/finally,
so a propagating exception skips the reset. -/
def with_memory {α : Type} (f : DBState → Except ErrKind α × DBState)
    (st : DBState) : Except ErrKind α × DBState :=
  let st1 := { st with newObjectBackend := "memory" }
  match f st1 with
  | (Except.ok a, st2) => (Except.ok a, { st2 with newObjectBackend := "none" })
  | (Except.error e, st2) => (Except.error e, st2)

/-- The per-object persistence state of a Saveable instance: its class name,
its table_name, its _id (idField here) and its backend. The source's backend
property resolves an unset _backend to the none backend; this model stores
the resolved backend value. -/
structure Saveable where
  cls : String
  table_name : String
  idField : Option Int
  backend : Backend
deriving DecidableEq

/-- Modelled from the spec: backend.get_next_available_id for the
none/memory backends, which counts objects of each table starting with 1,
scoped per table_name. -/
def get_next_available_id (st : DBState) (table : String) : Int × DBState :=
  let n := (assocFind st.memCounters table).getD 0 + 1
  ((n : Int), { st with memCounters := setCounter st.memCounters table n })

/-- The id-assignment branch of the Saveable.id property (db.py lines
408-417): objects in the none or memory backend get the next available id
for their table; an object claiming any other backend without an id raises
DataBaseError. -/
def Saveable.assign_id (o : Saveable) (st : DBState) :
    Except ErrKind (Int × Saveable × DBState) :=
  if o.backend.backend_type = "none" ∨ o.backend.backend_type = "memory" then
    let r := get_next_available_id st o.table_name
    Except.ok (r.1, { o with idField := some r.1 }, r.2)
  else Except.error ErrKind.dataBaseError

/-- Saveable.id property, db.py lines 405-418. Python's test `not self._id`
is true both for None and for 0, so both trigger assignment; any other
stored id is returned unchanged. -/
def Saveable.id (o : Saveable) (st : DBState) :
    Except ErrKind (Int × Saveable × DBState) :=
  match o.idField with
  | Option.none => Saveable.assign_id o st
  | some i => if i == 0 then Saveable.assign_id o st else Except.ok (i, o, st)

/-- DataBase.get, db.py lines 48-53: uses the given backend or the active
one and delegates to backend.get, which is modelled as the opaque function
backendGet (the concrete backends live outside src/). -/
def DataBase.get (backendGet : Backend → Except ErrKind Saveable)
    (backendArg : Option Backend) (st : DBState) : Except ErrKind Saveable :=
  backendGet (backendArg.getD st.active)

/-- The Saveable.get classmethod, db.py lines 631-638: remembers the old
active backend, switches to the requested one (or the old one when none is
requested), performs DB.get, and switches back. The switch back is a plain
statement after the get, not a finally block, so when backendGet raises the
exception propagates with the active backend still the requested one. -/
def Saveable.get (backendGet : Backend → Except ErrKind Saveable)
    (backendArg : Option Backend) (st : DBState) :
    Except ErrKind Saveable × DBState :=
  let old := st.active
  match DataBase.set_backend (Sum.inr (backendArg.getD old)) st with
  | Except.error e => (Except.error e, st)
  | Except.ok (_, st1) =>
    match DataBase.get backendGet Option.none st1 with
    | Except.error e => (Except.error e, st1)
    | Except.ok obj =>
      match DataBase.set_backend (Sum.inr old) st1 with
      | Except.error e => (Except.error e, st1)
      | Except.ok (_, st2) => (Except.ok obj, st2)

/-- PlaceHolderObject, db.py lines 646-664: carries the id, the class and a
backend. Its constructor defaults the backend to the active one and raises
DataBaseError when the resulting backend is the none backend (nothing to
lazily fetch from). -/
structure PlaceHolderObject where
  id : Int
  cls : String
  backend : Backend
deriving DecidableEq

/-- The PlaceHolderObject constructor, db.py lines 649-664. -/
def PlaceHolderObject.make (i : Int) (cls : String)
    (backendArg : Option Backend) (st : DBState) :
    Except ErrKind PlaceHolderObject :=
  let b := backendArg.getD st.active
  if b = Backend.none then Except.error ErrKind.dataBaseError
  else Except.ok { id := i, cls := cls, backend := b }

/-- An element of obj_ids in fill_object_list: either a bare int id (which
implies the active backend) or an explicit (backend, id) pair. -/
inductive ObjIdRef where
  | intId (i : Int)
  | pairId (b : Backend) (i : Int)
deriving DecidableEq

/-- An element of the list returned by fill_object_list: one of the objects
passed in, or an appended placeholder. -/
inductive FillItem where
  | existing (o : Saveable)
  | placeholder (p : PlaceHolderObject)
deriving DecidableEq

/-- The list comprehension computing provided_series_ids in
fill_object_list (db.py line 694): accesses s.id on every element in order,
which can assign ids (mutating the elements and the counters) or raise. -/
def computeIds : List Saveable → DBState →
    Except ErrKind (List Int × List Saveable × DBState)
  | [], st => Except.ok ([], [], st)
  | o :: rest, st =>
    match Saveable.id o st with
    | Except.error e => Except.error e
    | Except.ok (i, o1, st1) =>
      match computeIds rest st1 with
      | Except.error e => Except.error e
      | Except.ok (is, os, st2) => Except.ok (i :: is, o1 :: os, st2)

/-- The statement cls = cls or object_list[0].__class__ (db.py line 692):
with no cls and object_list None this is a TypeError (None is not
subscriptable); with no cls and an empty list it is an IndexError. -/
def resolve_cls (cls : Option String) (object_list : Option (List Saveable)) :
    Except ErrKind String :=
  match cls with
  | some c => Except.ok c
  | Option.none =>
    match object_list with
    | Option.none => Except.error ErrKind.typeError
    | some [] => Except.error ErrKind.indexError
    | some (o :: _) => Except.ok o.cls

/-- The appending loop of fill_object_list (db.py lines 697-704): for each
identity, a bare int takes DB.backend and a pair is unpacked; ids already in
provided_series_ids are skipped, the rest get a PlaceHolderObject (whose
constructor can raise). The loop reads but never changes the state. -/
def fill_loop (clsName : String) (provided : List Int) (ids : List ObjIdRef)
    (st : DBState) : Except ErrKind (List FillItem) :=
  match ids with
  | [] => Except.ok []
  | r :: rest =>
    let bi : Backend × Int :=
      match r with
      | ObjIdRef.intId i => (st.active, i)
      | ObjIdRef.pairId b i => (b, i)
    if provided.contains bi.2 then fill_loop clsName provided rest st
    else
      match PlaceHolderObject.make bi.2 clsName (some bi.1) st with
      | Except.error e => Except.error e
      | Except.ok p =>
        match fill_loop clsName provided rest st with
        | Except.error e => Except.error e
        | Except.ok l => Except.ok (FillItem.placeholder p :: l)

/-- fill_object_list, db.py lines 678-705. Note the order of operations in
the source: the class is resolved first, then provided_series_ids is
computed by accessing s.id on every element, and only then is the empty
obj_ids early return taken; Python's `if not obj_ids` treats None and the
empty list alike. The same (possibly element-updated) list is returned, with
placeholders appended for unrepresented ids. -/
def fill_object_list (object_list : Option (List Saveable))
    (obj_ids : Option (List ObjIdRef)) (cls : Option String) (st : DBState) :
    Except ErrKind (List FillItem × DBState) :=
  match resolve_cls cls object_list with
  | Except.error e => Except.error e
  | Except.ok clsName =>
    match computeIds (object_list.getD []) st with
    | Except.error e => Except.error e
    | Except.ok (provided, ol1, st1) =>
      match obj_ids with
      | Option.none => Except.ok (ol1.map FillItem.existing, st1)
      | some [] => Except.ok (ol1.map FillItem.existing, st1)
      | some ids =>
        match fill_loop clsName provided ids st1 with
        | Except.error e => Except.error e
        | Except.ok phs =>
          Except.ok (ol1.map FillItem.existing ++ phs, st1)

/-- What the backend setter stores in self._backend: either an actual
backend instance or, for an unrecognized non-empty string, the raw string
itself. -/
inductive BackendVal where
  | inst (b : Backend)
  | rawString (s : String)
deriving DecidableEq

/-- The Saveable.backend setter, db.py lines 451-462. A falsy argument
(None, or the empty string) is replaced by DB.new_object_backend; a string
is resolved through database_backends, then BACKEND_CLASSES; an unrecognized
string only prints a warning and is stored as-is. Returns the stored value
and whether the warning was printed. No exception is raised on any path. -/
def Saveable.backend_setter (arg : Option (Sum String Backend))
    (st : DBState) : BackendVal × Bool :=
  let a : Sum String Backend :=
    match arg with
    | Option.none => Sum.inl st.newObjectBackend
    | some (Sum.inl s) => if s = "" then Sum.inl st.newObjectBackend else Sum.inl s
    | some (Sum.inr b) => Sum.inr b
  match a with
  | Sum.inr b => (BackendVal.inst b, false)
  | Sum.inl s =>
    match assocFind database_backends s with
    | some b => (BackendVal.inst b, false)
    | Option.none =>
      if BACKEND_CLASSES.contains s then
        (BackendVal.inst (instantiate_backend s), false)
      else (BackendVal.rawString s, true)

/-- Column, db.py lines 100-139: metadata for one persisted attribute. -/
structure Column where
  name : String
  ctype : String
  attribute_name : String
  foreign_key : Option (String × String)
deriving DecidableEq

/-- OwnedObjectList, db.py lines 142-204: metadata for a many-to-many
relationship, naming the list attribute, the member table and the joining
table. -/
structure OwnedObjectList where
  list_name : String
  owned_object_table_name : String
  joining_table_name : String
  parent_object_id_column_name : Option String
  owned_object_id_column_name : Option String
deriving DecidableEq

/-- The two Saveable classes of the claimed scenario: Parent with table
"parent" and column name, and Child extending Parent with table "child", no
new columns and one owned object list. -/
inductive SClass where
  | Parent
  | Child
deriving DecidableEq

/-- Python's cls.mro() restricted as the source loop does (db.py lines
335-343): only proper subclasses of Saveable are kept, child first. -/
def SClass.mro_saveable : SClass → List SClass
  | SClass.Parent => [SClass.Parent]
  | SClass.Child => [SClass.Child, SClass.Parent]

/-- Python's issubclass on the scenario classes (reflexive). -/
def SClass.issubclass : SClass → SClass → Bool
  | SClass.Parent, SClass.Parent => true
  | SClass.Parent, SClass.Child => false
  | SClass.Child, _ => true

/-- The table_name class attribute of each scenario class. -/
def SClass.table_name : SClass → String
  | SClass.Parent => "parent"
  | SClass.Child => "child"

/-- The columns class attribute: Parent declares the name column, Child
declares no new columns. -/
def SClass.columns : SClass → List Column
  | SClass.Parent => [{ name := "name", ctype := "str",
                        attribute_name := "name", foreign_key := Option.none }]
  | SClass.Child => []

/-- The items relation of the scenario: list "items" over member table
"item" via joining table "child_item". -/
def items_descriptor : OwnedObjectList :=
  { list_name := "items", owned_object_table_name := "item",
    joining_table_name := "child_item",
    parent_object_id_column_name := Option.none,
    owned_object_id_column_name := Option.none }

/-- The owned_object_lists class attribute: only Child declares one. -/
def SClass.owned_object_lists : SClass → List OwnedObjectList
  | SClass.Parent => []
  | SClass.Child => [items_descriptor]

/-- Saveable.column_names, db.py lines 324-326. -/
def SClass.column_names (c : SClass) : List String :=
  (SClass.columns c).map Column.name

/-- The inner insertion step of get_column_resolution_order (db.py lines
344-349): a class from the mro is inserted immediately before the first
class already in the cro list that is its subclass, or appended. -/
def insert_into_cro (c : SClass) : List SClass → List SClass
  | [] => [c]
  | x :: xs =>
    if SClass.issubclass x c then c :: x :: xs else x :: insert_into_cro c xs

/-- Saveable.get_column_resolution_order, db.py lines 328-350: parent
classes come before their children, the present class last. -/
def get_column_resolution_order (cls : SClass) : List SClass :=
  (SClass.mro_saveable cls).foldl (fun acc c => insert_into_cro c acc) []

/-- The inner column loop of get_full_columns (db.py lines 362-379): each
column's attribute must be new, unless it is a foreign key into an
already-included table whose column names contain the referenced column;
otherwise ValueError. The accumulator carries the full column list and the
saved attribute list. -/
def add_columns (tcs : List (String × SClass)) :
    List Column → List Column × List String →
    Except ErrKind (List Column × List String)
  | [], acc => Except.ok acc
  | c :: rest, acc =>
    if acc.2.contains c.attribute_name then
      match c.foreign_key with
      | some fk =>
        match assocFind tcs fk.1 with
        | some pc =>
          if (SClass.column_names pc).contains fk.2 then
            add_columns tcs rest acc
          else Except.error ErrKind.valueError
        | Option.none => Except.error ErrKind.valueError
      | Option.none => Except.error ErrKind.valueError
    else add_columns tcs rest (acc.1 ++ [c], acc.2 ++ [c.attribute_name])

/-- The outer loop of get_full_columns (db.py lines 358-379): classes whose
table_name was already seen contribute nothing; otherwise the class is
recorded in table_classes before its columns are merged. -/
def full_columns_loop :
    List SClass → List (String × SClass) → List Column × List String →
    Except ErrKind (List Column × List String)
  | [], _, acc => Except.ok acc
  | pc :: rest, tcs, acc =>
    if (tcs.map Prod.fst).contains (SClass.table_name pc) then
      full_columns_loop rest tcs acc
    else
      let tcs1 := tcs ++ [(SClass.table_name pc, pc)]
      match add_columns tcs1 (SClass.columns pc) acc with
      | Except.error e => Except.error e
      | Except.ok acc1 => full_columns_loop rest tcs1 acc1

/-- Saveable.get_full_columns, db.py lines 352-381. -/
def get_full_columns (cls : SClass) : Except ErrKind (List Column) :=
  match full_columns_loop (get_column_resolution_order cls) [] ([], []) with
  | Except.error e => Except.error e
  | Except.ok acc => Except.ok acc.1

/-- The inner relation loop of get_full_owned_object_lists (db.py lines
393-402): a repeated list_name is a ValueError, otherwise the descriptor is
appended. -/
def add_owned_object_lists :
    List OwnedObjectList → List OwnedObjectList × List String →
    Except ErrKind (List OwnedObjectList × List String)
  | [], acc => Except.ok acc
  | o :: rest, acc =>
    if acc.2.contains o.list_name then Except.error ErrKind.valueError
    else add_owned_object_lists rest (acc.1 ++ [o], acc.2 ++ [o.list_name])

/-- The outer loop of get_full_owned_object_lists (db.py lines 389-402),
with the same duplicate-table skip as the column merge. -/
def full_owned_object_lists_loop :
    List SClass → List String → List OwnedObjectList × List String →
    Except ErrKind (List OwnedObjectList × List String)
  | [], _, acc => Except.ok acc
  | pc :: rest, seen, acc =>
    if seen.contains (SClass.table_name pc) then
      full_owned_object_lists_loop rest seen acc
    else
      match add_owned_object_lists (SClass.owned_object_lists pc) acc with
      | Except.error e => Except.error e
      | Except.ok acc1 =>
        full_owned_object_lists_loop rest (seen ++ [SClass.table_name pc]) acc1

/-- Saveable.get_full_owned_object_lists, db.py lines 383-403. -/
def get_full_owned_object_lists (cls : SClass) :
    Except ErrKind (List OwnedObjectList) :=
  match full_owned_object_lists_loop (get_column_resolution_order cls) []
      ([], []) with
  | Except.error e => Except.error e
  | Except.ok acc => Except.ok acc.1

/-- Attribute values appearing in an entity's dictionary representation.
Floating point values are outside this model; on this domain the source's
tools.thing_is_close comparison (tools.py is not under src/; per the spec it
is tolerance for floats and numeric arrays, exact equality for all else)
is exact equality. -/
inductive Value where
  | intV (n : Int)
  | strV (s : String)
  | intListV (l : List Int)
deriving DecidableEq

/-- Modelled from the spec: tools.thing_is_close restricted to the float-free
Value domain, where it is exact equality. -/
def thing_is_close : Value → Value → Bool
  | Value.intV a, Value.intV b => a == b
  | Value.strV a, Value.strV b => a == b
  | Value.intListV a, Value.intListV b => a == b
  | _, _ => false

mutual
/-- The data Saveable.__eq__ consults on an entity: its concrete class name,
its as_dict() output (a finite mapping, kept as an association list with
unique keys), the linker id column names derived from extra_linkers, and the
owned child object lists named by child_attrs, in class declaration order.
Reference identity (self is other) has no counterpart on values; the
source's short-circuit only returns True sooner on one and the same object
and cannot change the result on the acyclic graphs representable here. -/
inductive EntityRep where
  | mk (className : String) (attrs : List (String × Value))
      (linkerIdNames : List String) (childLists : ChildLists)

/-- The list of owned child object lists of one entity. -/
inductive ChildLists where
  | nil
  | cons (hd : ChildList) (tl : ChildLists)

/-- One owned child object list. -/
inductive ChildList where
  | nil
  | cons (hd : EntityRep) (tl : ChildList)
end

/-- The lookup other_as_dict[key] (first match; keys are unique since they
come from a Python dict). -/
def lookupAttr : List (String × Value) → String → Option Value
  | [], _ => Option.none
  | (k, v) :: rest, key => if k = key then some v else lookupAttr rest key

/-- The key loop of Saveable.__eq__ (db.py lines 574-589): every key of
self_as_dict must be present in other_as_dict with a close value. The
source's `if key in linker_id_names: pass` (lines 579-584) has no continue
and therefore no effect: the thing_is_close comparison below it runs for
linker id keys too, so linkerIdNames does not enter this function. -/
def attrsAllClose (selfAttrs otherAttrs : List (String × Value)) : Bool :=
  selfAttrs.all fun kv =>
    match lookupAttr otherAttrs kv.1 with
    | Option.none => false
    | some w => thing_is_close kv.2 w

mutual
/-- Saveable.__eq__, db.py lines 540-602: same concrete class, same
dictionary size, every key close (including, because the pass has no
continue, the raw linker id columns), and every owned child list
element-wise equal under zip (which stops at the shorter list). -/
def Saveable_eq : EntityRep → EntityRep → Bool
  | EntityRep.mk c1 a1 _ ch1, EntityRep.mk c2 a2 _ ch2 =>
    if c1 ≠ c2 then false
    else if a1.length ≠ a2.length then false
    else attrsAllClose a1 a2 && childListsEq ch1 ch2

/-- The loop over child_attrs (db.py lines 592-599); both entities are of
the same class there, so the lists of child lists are aligned
positionally. -/
def childListsEq : ChildLists → ChildLists → Bool
  | ChildLists.cons l1 t1, ChildLists.cons l2 t2 =>
    childListEq l1 l2 && childListsEq t1 t2
  | _, _ => true

/-- The zip comparison of one pair of child lists (db.py lines 597-599):
Python's zip stops at the shorter list. -/
def childListEq : ChildList → ChildList → Bool
  | ChildList.cons o1 t1, ChildList.cons o2 t2 =>
    Saveable_eq o1 o2 && childListEq t1 t2
  | _, _ => true
end

/-- A backend-level get that always raises, standing in for an underlying
get that fails. -/
def raising_backend_get : Backend → Except ErrKind Saveable :=
  fun _ => Except.error ErrKind.dataBaseError

/-- A backend-level get that returns an object loaded from the backend it
was asked. -/
def ok_backend_get : Backend → Except ErrKind Saveable :=
  fun b => Except.ok { cls := "T", table_name := "t", idField := some 1, backend := b }

/-- Claim C1 counterexample: with the directory backend active, calling the
class-level get with the memory backend while the underlying get raises
leaves the active backend switched to memory, not restored to directory.
The restore statement is not in a finally block, so it is skipped on the
exception path. -/
theorem saveable_get_active_backend_not_restored_on_error :
    defaultState.active = Backend.directory ∧
    (Saveable.get raising_backend_get (some Backend.memory) defaultState).2.active
      = Backend.memory :=
  ⟨rfl, rfl⟩

/-- Claim C1 (amended): the class-level get restores the prior active
backend on every normal return; when the underlying get raises, the
exception propagates with the active backend left equal to the requested
backend (or the old one when none was requested), not restored. -/
theorem saveable_get_backend_restoration
    (backendGet : Backend → Except ErrKind Saveable) (backendArg : Option Backend)
    (st : DBState) :
    (∀ o, (Saveable.get backendGet backendArg st).1 = Except.ok o →
      (Saveable.get backendGet backendArg st).2.active = st.active) ∧
    (∀ e, (Saveable.get backendGet backendArg st).1 = Except.error e →
      (Saveable.get backendGet backendArg st).2.active
        = backendArg.getD st.active) := by
  cases hbg : backendGet (backendArg.getD st.active) with
  | ok o =>
    constructor
    · intro o1 _
      simp [Saveable.get, DataBase.get, DataBase.set_backend, hbg]
    · intro e1 h1
      simp [Saveable.get, DataBase.get, DataBase.set_backend, hbg] at h1
  | error e =>
    constructor
    · intro o1 h1
      simp [Saveable.get, DataBase.get, DataBase.set_backend, hbg] at h1
    · intro e1 _
      simp [Saveable.get, DataBase.get, DataBase.set_backend, hbg]

/-- Witness for the amended claim C1 at concrete inputs: a successful get
through the memory backend leaves the default (directory) backend active,
and a raising get leaves the requested memory backend active. -/
theorem saveable_get_backend_restoration_witness :
    (Saveable.get ok_backend_get (some Backend.memory) defaultState).2.active
      = defaultState.active ∧
    (Saveable.get raising_backend_get (some Backend.memory) defaultState).2.active
      = (some Backend.memory).getD defaultState.active :=
  ⟨(saveable_get_backend_restoration ok_backend_get (some Backend.memory)
      defaultState).1 _ rfl,
   (saveable_get_backend_restoration raising_backend_get (some Backend.memory)
      defaultState).2 ErrKind.dataBaseError rfl⟩

/-- A wrapped function that raises without touching the state, for the
with_memory error path. -/
def raising_wrapped : DBState → Except ErrKind Unit × DBState :=
  fun s => (Except.error ErrKind.dataBaseError, s)

/-- A wrapped function that returns normally without touching the state. -/
def ok_wrapped : DBState → Except ErrKind Nat × DBState :=
  fun s => (Except.ok 7, s)

/-- Claim C2 counterexample: when the wrapped function raises, new-object
routing is left at "memory" rather than being restored to "none"; the
reset statement is not in a finally block, so the exception skips it. -/
theorem with_memory_routing_not_restored_on_error :
    defaultState.newObjectBackend = "none" ∧
    (with_memory raising_wrapped defaultState).2.newObjectBackend = "memory" :=
  ⟨rfl, rfl⟩

/-- Claim C2 (amended): with_memory runs the wrapped function on state whose
new-object routing is "memory"; on normal return the routing is reset to
"none", while on an exception the error propagates with the routing exactly
as the wrapped call left it (still "memory" unless the function changed
it). -/
theorem with_memory_routing {α : Type}
    (f : DBState → Except ErrKind α × DBState) (st : DBState) :
    (∀ a st1, f { st with newObjectBackend := "memory" } = (Except.ok a, st1) →
      with_memory f st = (Except.ok a, { st1 with newObjectBackend := "none" })) ∧
    (∀ e st1, f { st with newObjectBackend := "memory" } = (Except.error e, st1) →
      with_memory f st = (Except.error e, st1)) := by
  constructor
  · intro a st1 h
    simp only [with_memory]
    rw [h]
  · intro e st1 h
    simp only [with_memory]
    rw [h]

/-- Witness for the amended claim C2 at concrete inputs: a normal return
restores routing to "none" and an exception leaves it at "memory". -/
theorem with_memory_routing_witness :
    with_memory ok_wrapped defaultState
      = (Except.ok 7, { defaultState with newObjectBackend := "none" }) ∧
    with_memory raising_wrapped defaultState
      = (Except.error ErrKind.dataBaseError,
          { defaultState with newObjectBackend := "memory" }) :=
  ⟨(with_memory_routing ok_wrapped defaultState).1 7
      { defaultState with newObjectBackend := "memory" } rfl,
   (with_memory_routing raising_wrapped defaultState).2 ErrKind.dataBaseError
      { defaultState with newObjectBackend := "memory" } rfl⟩

/-- Claim C4 counterexample: an unrecognized backend name makes set_backend
raise the Python builtin NotImplementedError (db.py line 71), which is not
the ConfigurationError kind the specification names. -/
theorem set_backend_unrecognized_raises :
    DataBase.set_backend (Sum.inl "bogus") defaultState
      = Except.error ErrKind.notImplementedError ∧
    ErrKind.notImplementedError ≠ ErrKind.configurationError :=
  ⟨rfl, by decide⟩

/-- Claim C4 (amended): for every string registered in neither the instance
registry nor the class registry, set_backend raises NotImplementedError
(not ConfigurationError); for every registered backend class name it
instantiates that class, makes the instance the active backend and returns
it. Only the class registry is consulted by the source. -/
theorem set_backend_registry_behaviour (s : String) (st : DBState) :
    (s ∉ database_backends.map Prod.fst → s ∉ BACKEND_CLASSES →
      DataBase.set_backend (Sum.inl s) st
        = Except.error ErrKind.notImplementedError) ∧
    (s ∈ BACKEND_CLASSES →
      DataBase.set_backend (Sum.inl s) st
        = Except.ok (instantiate_backend s,
            { st with active := instantiate_backend s })) := by
  constructor
  · intro _ h2
    simp [DataBase.set_backend, h2]
  · intro h
    simp [DataBase.set_backend, h]

/-- Witness for the amended claim C4 at concrete inputs: the name sqlite is
in neither registry and raises NotImplementedError; the registered class
name memory switches the active backend. -/
theorem set_backend_registry_behaviour_witness :
    DataBase.set_backend (Sum.inl "sqlite") defaultState
      = Except.error ErrKind.notImplementedError ∧
    DataBase.set_backend (Sum.inl "memory") defaultState
      = Except.ok (instantiate_backend "memory",
          { defaultState with active := instantiate_backend "memory" }) :=
  ⟨(set_backend_registry_behaviour "sqlite" defaultState).1 (by decide) (by decide),
   (set_backend_registry_behaviour "memory" defaultState).2 (by decide)⟩

/-- Claim C3: in the declared Parent/Child scenario, Child's full column
merge is exactly Parent's columns (no duplication, no omission, no error)
and Child's full owned-object-list merge holds the items descriptor exactly
once. -/
theorem child_full_columns_and_owned_object_lists :
    get_full_columns SClass.Child = Except.ok (SClass.columns SClass.Parent) ∧
    get_full_owned_object_lists SClass.Child = Except.ok [items_descriptor] ∧
    List.count items_descriptor [items_descriptor] = 1 :=
  ⟨rfl, rfl, by decide⟩

/-- A resolved child object shared by the two measurements below. -/
def child_series : EntityRep :=
  EntityRep.mk "DataSeries" [("name", Value.strV "c")] [] ChildLists.nil

/-- A measurement-like entity whose linker id column s_ids holds [1]. -/
def measurement_a : EntityRep :=
  EntityRep.mk "Measurement"
    [("name", Value.strV "m"), ("s_ids", Value.intListV [1])] ["s_ids"]
    (ChildLists.cons (ChildList.cons child_series ChildList.nil) ChildLists.nil)

/-- The same entity except that its raw linker id column s_ids holds [2];
its resolved child list is identical to measurement_a's. -/
def measurement_b : EntityRep :=
  EntityRep.mk "Measurement"
    [("name", Value.strV "m"), ("s_ids", Value.intListV [2])] ["s_ids"]
    (ChildLists.cons (ChildList.cons child_series ChildList.nil) ChildLists.nil)

/-- Claim C5, evaluated at the failing input: the two entities differ only
in the raw linker id column s_ids and their owned child lists compare
element-wise equal, yet __eq__ returns False — the `pass` under
`if key in linker_id_names` (db.py line 584) has no continue, so the raw
linker id values are compared after all, contradicting the claim and the
source's own comment that the linker names are not wanted. -/
theorem eq_compares_raw_linker_id_columns :
    childListsEq
      (ChildLists.cons (ChildList.cons child_series ChildList.nil) ChildLists.nil)
      (ChildLists.cons (ChildList.cons child_series ChildList.nil) ChildLists.nil)
      = true ∧
    Saveable_eq measurement_a measurement_b = false :=
  ⟨rfl, rfl⟩

/-- Claim C6: filling an empty list with ids 1, 2, 3 yields exactly three
placeholders carrying the active backend; filling a list holding an entity
with id 2 appends placeholders for ids 1 and 3 only, leaving the entity
itself unchanged. -/
theorem fill_object_list_placeholders (st : DBState) (e2 : Saveable)
    (hst : st.active ≠ Backend.none) (he2 : e2.idField = some 2) :
    fill_object_list (some [])
        (some [ObjIdRef.intId 1, ObjIdRef.intId 2, ObjIdRef.intId 3])
        (some "T") st
      = Except.ok
          ([FillItem.placeholder { id := 1, cls := "T", backend := st.active },
            FillItem.placeholder { id := 2, cls := "T", backend := st.active },
            FillItem.placeholder { id := 3, cls := "T", backend := st.active }],
           st) ∧
    fill_object_list (some [e2])
        (some [ObjIdRef.intId 1, ObjIdRef.intId 2, ObjIdRef.intId 3])
        (some "T") st
      = Except.ok
          ([FillItem.existing e2,
            FillItem.placeholder { id := 1, cls := "T", backend := st.active },
            FillItem.placeholder { id := 3, cls := "T", backend := st.active }],
           st) := by
  have hmk : ∀ i : Int,
      PlaceHolderObject.make i "T" (some st.active) st
        = Except.ok { id := i, cls := "T", backend := st.active } := by
    intro i
    unfold PlaceHolderObject.make
    simp [hst]
  constructor
  · simp +decide [fill_object_list, resolve_cls, computeIds, fill_loop, hmk]
  · simp +decide [fill_object_list, resolve_cls, computeIds, fill_loop,
      Saveable.id, he2, hmk]

/-- Witness for claim C6 at concrete inputs: the default state (directory
backend active) and an entity already carrying id 2. -/
theorem fill_object_list_placeholders_witness :
    fill_object_list (some [])
        (some [ObjIdRef.intId 1, ObjIdRef.intId 2, ObjIdRef.intId 3])
        (some "T") defaultState
      = Except.ok
          ([FillItem.placeholder
              { id := 1, cls := "T", backend := defaultState.active },
            FillItem.placeholder
              { id := 2, cls := "T", backend := defaultState.active },
            FillItem.placeholder
              { id := 3, cls := "T", backend := defaultState.active }],
           defaultState) ∧
    fill_object_list
        (some [{ cls := "T", table_name := "t", idField := some 2,
                 backend := Backend.memory }])
        (some [ObjIdRef.intId 1, ObjIdRef.intId 2, ObjIdRef.intId 3])
        (some "T") defaultState
      = Except.ok
          ([FillItem.existing
              { cls := "T", table_name := "t", idField := some 2,
                backend := Backend.memory },
            FillItem.placeholder
              { id := 1, cls := "T", backend := defaultState.active },
            FillItem.placeholder
              { id := 3, cls := "T", backend := defaultState.active }],
           defaultState) :=
  fill_object_list_placeholders defaultState
    { cls := "T", table_name := "t", idField := some 2,
      backend := Backend.memory }
    (by decide) rfl

/-- On the float-free Value domain, thing_is_close is reflexive. -/
theorem thing_is_close_self (v : Value) : thing_is_close v v = true := by
  cases v <;> simp [thing_is_close]

/-- Dict lookup finds the stored value when keys are unique. -/
theorem lookupAttr_eq_of_mem_nodup (a : List (String × Value)) (k : String)
    (v : Value) (hnd : (a.map Prod.fst).Nodup) (hm : (k, v) ∈ a) :
    lookupAttr a k = some v := by
  induction a with
  | nil => cases hm
  | cons hd tl ih =>
    rw [List.map_cons, List.nodup_cons] at hnd
    rcases List.mem_cons.mp hm with h1 | h2
    · rw [← h1]
      simp [lookupAttr]
    · by_cases hk : hd.1 = k
      · exact absurd (List.mem_map.mpr ⟨(k, v), h2, hk.symm ▸ rfl⟩) hnd.1
      · simp only [lookupAttr, if_neg hk]
        exact ih hnd.2 h2

/-- The key loop of __eq__ accepts identical attribute maps with unique
keys. -/
theorem attrsAllClose_self (a : List (String × Value))
    (hnd : (a.map Prod.fst).Nodup) : attrsAllClose a a = true := by
  rw [attrsAllClose, List.all_eq_true]
  intro kv hkv
  rw [lookupAttr_eq_of_mem_nodup a kv.1 kv.2 hnd hkv]
  exact thing_is_close_self kv.2

/-- Dict lookup in a map updated at one key with unique keys finds the
updated value. -/
theorem lookupAttr_append_mid (pre post : List (String × Value)) (k : String)
    (w : Value) (hk : k ∉ pre.map Prod.fst) :
    lookupAttr (pre ++ (k, w) :: post) k = some w := by
  induction pre with
  | nil => simp [lookupAttr]
  | cons hd tl ih =>
    rw [List.map_cons] at hk
    have h1 : hd.1 ≠ k := by
      intro h
      apply hk
      rw [← h]
      exact List.mem_cons_self _ _
    rw [List.cons_append]
    simp only [lookupAttr, if_neg h1]
    exact ih fun hm => hk (List.mem_cons_of_mem _ hm)

/-- Claim C7: (a) two same-class entities with identical attribute maps
(unique keys) and recursively equal owned-child lists compare equal;
(b) changing one attribute to a value that is not close makes them unequal;
(c) swapping the first two, mutually unequal, members of an owned-child
list makes them unequal. -/
theorem structural_equality_properties :
    (∀ (c : String) (a : List (String × Value)) (l1 l2 : List String)
        (ch1 ch2 : ChildLists),
      (a.map Prod.fst).Nodup → childListsEq ch1 ch2 = true →
      Saveable_eq (EntityRep.mk c a l1 ch1) (EntityRep.mk c a l2 ch2) = true) ∧
    (∀ (c : String) (pre post : List (String × Value)) (k : String)
        (v w : Value) (l1 l2 : List String) (ch1 ch2 : ChildLists),
      ((pre ++ (k, v) :: post).map Prod.fst).Nodup →
      thing_is_close v w = false →
      Saveable_eq (EntityRep.mk c (pre ++ (k, v) :: post) l1 ch1)
        (EntityRep.mk c (pre ++ (k, w) :: post) l2 ch2) = false) ∧
    (∀ (c : String) (a : List (String × Value)) (l : List String)
        (x y : EntityRep) (rest : ChildLists),
      Saveable_eq x y = false →
      Saveable_eq
        (EntityRep.mk c a l
          (ChildLists.cons (ChildList.cons x (ChildList.cons y ChildList.nil))
            rest))
        (EntityRep.mk c a l
          (ChildLists.cons (ChildList.cons y (ChildList.cons x ChildList.nil))
            rest)) = false) := by
  refine ⟨?_, ?_, ?_⟩
  · intro c a l1 l2 ch1 ch2 hnd hch
    simp [Saveable_eq, attrsAllClose_self a hnd, hch]
  · intro c pre post k v w l1 l2 ch1 ch2 hnd hvw
    have hkpre : k ∉ pre.map Prod.fst := by
      rw [List.map_append] at hnd
      intro hmem
      exact (List.disjoint_of_nodup_append hnd) hmem
        (List.mem_cons_self _ _)
    have hfalse : attrsAllClose (pre ++ (k, v) :: post)
        (pre ++ (k, w) :: post) = false := by
      rw [attrsAllClose, List.all_eq_false]
      refine ⟨(k, v), by simp, ?_⟩
      rw [lookupAttr_append_mid pre post k w hkpre]
      simp [hvw]
    simp [Saveable_eq, hfalse]
  · intro c a l x y rest hxy
    simp [Saveable_eq, childListsEq, childListEq, hxy]

/-- Witness for claim C7 at concrete inputs: equal entities with one child,
entities differing in the name attribute, and entities with a swapped pair
of unequal children. -/
theorem structural_equality_properties_witness :
    Saveable_eq
        (EntityRep.mk "M" [("name", Value.strV "x")] []
          (ChildLists.cons (ChildList.cons child_series ChildList.nil)
            ChildLists.nil))
        (EntityRep.mk "M" [("name", Value.strV "x")] ["ids"]
          (ChildLists.cons (ChildList.cons child_series ChildList.nil)
            ChildLists.nil)) = true ∧
    Saveable_eq
        (EntityRep.mk "M" [("name", Value.strV "x")] [] ChildLists.nil)
        (EntityRep.mk "M" [("name", Value.strV "y")] [] ChildLists.nil)
      = false ∧
    Saveable_eq
        (EntityRep.mk "M" [] []
          (ChildLists.cons
            (ChildList.cons (EntityRep.mk "A" [] [] ChildLists.nil)
              (ChildList.cons (EntityRep.mk "B" [] [] ChildLists.nil)
                ChildList.nil))
            ChildLists.nil))
        (EntityRep.mk "M" [] []
          (ChildLists.cons
            (ChildList.cons (EntityRep.mk "B" [] [] ChildLists.nil)
              (ChildList.cons (EntityRep.mk "A" [] [] ChildLists.nil)
                ChildList.nil))
            ChildLists.nil)) = false :=
  ⟨structural_equality_properties.1 "M" [("name", Value.strV "x")] [] ["ids"]
      (ChildLists.cons (ChildList.cons child_series ChildList.nil)
        ChildLists.nil)
      (ChildLists.cons (ChildList.cons child_series ChildList.nil)
        ChildLists.nil)
      (by decide) rfl,
   structural_equality_properties.2.1 "M" [] [] "name"
      (Value.strV "x") (Value.strV "y") [] [] ChildLists.nil ChildLists.nil
      (by decide) (by decide),
   structural_equality_properties.2.2 "M" [] []
      (EntityRep.mk "A" [] [] ChildLists.nil)
      (EntityRep.mk "B" [] [] ChildLists.nil) ChildLists.nil rfl⟩

/-- Claim C8: on an unsaved entity (none or memory backend, no id yet) the
first id access assigns the next available id for its table, and a second
access returns the same id with the object and counters unchanged — the
assignment happens exactly once and is cached. -/
theorem id_assignment_idempotent (o : Saveable) (st : DBState)
    (h1 : o.idField = Option.none)
    (h2 : o.backend = Backend.none ∨ o.backend = Backend.memory) :
    Saveable.id o st
      = Except.ok ((get_next_available_id st o.table_name).1,
          { o with idField := some (get_next_available_id st o.table_name).1 },
          (get_next_available_id st o.table_name).2) ∧
    Saveable.id
        { o with idField := some (get_next_available_id st o.table_name).1 }
        (get_next_available_id st o.table_name).2
      = Except.ok ((get_next_available_id st o.table_name).1,
          { o with idField := some (get_next_available_id st o.table_name).1 },
          (get_next_available_id st o.table_name).2) := by
  have hbt : o.backend.backend_type = "none" ∨ o.backend.backend_type = "memory" := by
    rcases h2 with h | h <;> rw [h] <;> simp [Backend.backend_type]
  have hpos : ((get_next_available_id st o.table_name).1 == (0 : Int)) = false := by
    apply beq_eq_false_iff_ne.mpr
    simp [get_next_available_id]
    omega
  constructor
  · simp [Saveable.id, h1, Saveable.assign_id, hbt]
  · simp [Saveable.id, hpos]

/-- Witness for claim C8 at concrete inputs: a fresh memory-backend entity
in the default state gets id 1, and the second access returns the cached
id 1 with nothing changed. -/
theorem id_assignment_idempotent_witness :
    Saveable.id
        { cls := "T", table_name := "t", idField := Option.none,
          backend := Backend.memory } defaultState
      = Except.ok (1,
          { cls := "T", table_name := "t", idField := some 1,
            backend := Backend.memory },
          { defaultState with memCounters := [("t", 1)] }) ∧
    Saveable.id
        { cls := "T", table_name := "t", idField := some 1,
          backend := Backend.memory }
        { defaultState with memCounters := [("t", 1)] }
      = Except.ok (1,
          { cls := "T", table_name := "t", idField := some 1,
            backend := Backend.memory },
          { defaultState with memCounters := [("t", 1)] }) :=
  id_assignment_idempotent
    { cls := "T", table_name := "t", idField := Option.none,
      backend := Backend.memory }
    defaultState rfl (Or.inr rfl)

/-- Claim C9 counterexample: the empty string is registered in neither
registry, yet assigning it through the backend setter does not store the
raw string: Python's `new_backend or DB.new_object_backend` (db.py line
454) treats "" as falsy and substitutes the routing default, so the none
backend instance is stored and no warning is printed. -/
theorem backend_setter_empty_string :
    Saveable.backend_setter (some (Sum.inl "")) defaultState
      = (BackendVal.inst Backend.none, false) ∧
    BackendVal.inst Backend.none ≠ BackendVal.rawString "" :=
  ⟨rfl, by decide⟩

/-- Claim C9 (amended): for every non-empty string registered in neither
the instance registry nor the class registry, the backend setter raises no
exception: it prints a warning and stores the raw string as the entity's
backend. For the empty string the routing default is resolved and stored
instead. -/
theorem backend_setter_unrecognized_string (s : String) (st : DBState)
    (hne : s ≠ "")
    (h1 : s ∉ database_backends.map Prod.fst)
    (h2 : s ∉ BACKEND_CLASSES) :
    Saveable.backend_setter (some (Sum.inl s))  st
      = (BackendVal.rawString s, true) := by
  have e1 : ¬ ("none" = s) := fun h => h1 (by rw [← h]; simp [database_backends])
  have e2 : ¬ ("memory" = s) := fun h => h1 (by rw [← h]; simp [database_backends])
  have e3 : ¬ ("directory" = s) :=
    fun h => h1 (by rw [← h]; simp [database_backends])
  simp [Saveable.backend_setter, hne, database_backends, assocFind,
    e1, e2, e3, h2]

/-- Witness for the amended claim C9 at a concrete input: an unregistered
non-empty name is stored raw, with the warning printed. -/
theorem backend_setter_unrecognized_string_witness :
    Saveable.backend_setter (some (Sum.inl "zzz")) defaultState
      = (BackendVal.rawString "zzz", true) :=
  backend_setter_unrecognized_string "zzz" defaultState (by decide) (by decide)
    (by decide)

/-- An entity claiming the directory backend that was never given an id,
the input on which the unmodified-return claim for fill_object_list
fails. -/
def unsaved_directory_obj : Saveable :=
  { cls := "T", table_name := "t", idField := Option.none,
    backend := Backend.directory }

/-- Claim C10 counterexample: with a non-empty object list and obj_ids
None, fill_object_list does not return the list unchanged — the
provided_series_ids comprehension runs before the empty-obj_ids early
return and accessing s.id on a directory-backend entity without an id
raises DataBaseError. -/
theorem fill_object_list_raises_for_unassigned_id :
    fill_object_list (some [unsaved_directory_obj]) Option.none Option.none
        defaultState
      = Except.error ErrKind.dataBaseError ∧
    ∀ out, fill_object_list (some [unsaved_directory_obj]) Option.none
        Option.none defaultState ≠ Except.ok out := by
  have he : fill_object_list (some [unsaved_directory_obj]) Option.none
      Option.none defaultState = Except.error ErrKind.dataBaseError := rfl
  refine ⟨he, ?_⟩
  intro out h
  rw [he] at h
  exact Except.noConfusion h

/-- The provided_series_ids comprehension returns the elements unchanged,
with no state change, when every element already holds a nonzero id. -/
theorem computeIds_of_assigned (ol : List Saveable) (st : DBState) :
    (∀ o ∈ ol, ∃ i, o.idField = some i ∧ i ≠ (0 : Int)) →
    ∃ ids, computeIds ol st = Except.ok (ids, ol, st) := by
  induction ol with
  | nil => exact fun _ => ⟨[], rfl⟩
  | cons hd tl ih =>
    intro hids
    obtain ⟨i, hi, hz⟩ := hids hd (List.mem_cons_self _ _)
    obtain ⟨ids, htl⟩ := ih fun o ho => hids o (List.mem_cons_of_mem _ ho)
    refine ⟨i :: ids, ?_⟩
    simp [computeIds, Saveable.id, hi, beq_eq_false_iff_ne.mpr hz, htl]

/-- Claim C10 (amended): for every non-empty object_list whose elements all
hold an already-assigned nonzero id, fill_object_list with obj_ids None or
empty returns exactly the given objects — nothing added, removed or
modified, state unchanged. (Without the assigned-id proviso the pre-check
id accesses can raise or assign ids, as the counterexample shows.) -/
theorem fill_object_list_empty_obj_ids (ol : List Saveable) (st : DBState)
    (hne : ol ≠ [])
    (hids : ∀ o ∈ ol, ∃ i, o.idField = some i ∧ i ≠ (0 : Int)) :
    fill_object_list (some ol) Option.none Option.none st
      = Except.ok (ol.map FillItem.existing, st) ∧
    fill_object_list (some ol) (some []) Option.none st
      = Except.ok (ol.map FillItem.existing, st) := by
  obtain ⟨ids, hc⟩ := computeIds_of_assigned ol st hids
  cases ol with
  | nil => exact absurd rfl hne
  | cons hd tl =>
    constructor
    · simp [fill_object_list, resolve_cls, hc]
    · simp [fill_object_list, resolve_cls, hc]

/-- Witness for the amended claim C10 at a concrete input: a one-element
list whose entity holds id 5 is returned unchanged for both None and empty
obj_ids. -/
theorem fill_object_list_empty_obj_ids_witness :
    fill_object_list
        (some [{ cls := "T", table_name := "t", idField := some 5,
                 backend := Backend.memory }])
        Option.none Option.none defaultState
      = Except.ok
          ([FillItem.existing
              { cls := "T", table_name := "t", idField := some 5,
                backend := Backend.memory }], defaultState) ∧
    fill_object_list
        (some [{ cls := "T", table_name := "t", idField := some 5,
                 backend := Backend.memory }])
        (some []) Option.none defaultState
      = Except.ok
          ([FillItem.existing
              { cls := "T", table_name := "t", idField := some 5,
                backend := Backend.memory }], defaultState) :=
  fill_object_list_empty_obj_ids
    [{ cls := "T", table_name := "t", idField := some 5,
       backend := Backend.memory }]
    defaultState (by decide)
    (fun o ho => by
      rw [List.mem_singleton] at ho
      subst ho
      exact ⟨5, rfl, by decide⟩)
